import Mathlib

/-!
Shallow embedding of the scheduled-post / subscription-gating core of
`src/bot.py` (class `ChannelBot`).  Times are modelled as integers
(seconds of Moscow wall-clock time); `get_moscow_time()` becomes an
explicit `now : Int` parameter and `datetime.date()` becomes day
bucketing by integer division.  Python dicts keyed by user id or plan
key are modelled as association lists; fallible code (a `KeyError` on
`subscription_plans[...]`) returns `Option`.
-/

namespace PupuBot

/-- `ADMIN_ID` constant from the top of `src/bot.py`. -/
def ADMIN_ID : Int := 6646433980

/-- `ChannelBot.is_admin`: `user_id == ADMIN_ID`. -/
def is_admin (user_id : Int) : Bool := user_id == ADMIN_ID

/-- Models `get_moscow_time().date()`: collapses a Moscow timestamp
(seconds) to a day index. -/
def dateOf (t : Int) : Int := t / 86400

/-- One entry of `subscription_plans` (`DEFAULT_SUBSCRIPTION_PLANS`
value shape): `posts_per_day` and `channels_limit` use `-1` as the
"unlimited" sentinel, as in the source. -/
structure PlanConfig where
  name : String
  price : Int
  posts_per_day : Int
  channels_limit : Int
  channel_id : String
  channel_name : String
  duration_days : Int
deriving DecidableEq, Repr

/-- `DEFAULT_SUBSCRIPTION_PLANS["basic"]`. -/
def basicPlan : PlanConfig :=
  { name := "💰 Базовый - $1/месяц", price := 1, posts_per_day := 2,
    channels_limit := 1, channel_id := "", channel_name := "", duration_days := 30 }

/-- `DEFAULT_SUBSCRIPTION_PLANS["standard"]`. -/
def standardPlan : PlanConfig :=
  { name := "💎 Стандартный - $3/месяц", price := 3, posts_per_day := 6,
    channels_limit := 3, channel_id := "", channel_name := "", duration_days := 30 }

/-- `DEFAULT_SUBSCRIPTION_PLANS["premium"]`. -/
def premiumPlan : PlanConfig :=
  { name := "🚀 Премиум - $5/месяц", price := 5, posts_per_day := -1,
    channels_limit := -1, channel_id := "", channel_name := "", duration_days := 30 }

/-- The default plan table, as an association list keyed by plan key. -/
def defaultPlans : List (String × PlanConfig) :=
  [("basic", basicPlan), ("standard", standardPlan), ("premium", premiumPlan)]

/-- A `user_subscriptions[user_id]` record.  The code reads the keys
`"plan"` and `"expires_at"` and writes `"subscribed_at"`;
`expires_at = none` models a record without the `"expires_at"` key
(treated as expired by `is_subscription_expired`). -/
structure SubRecord where
  plan : String
  subscribed_at : Option Int
  expires_at : Option Int
deriving DecidableEq, Repr

/-- The `{"plan": "free"}` default returned by `get_user_plan` when no
subscription is stored. -/
def freeRecord : SubRecord := { plan := "free", subscribed_at := none, expires_at := none }

/-- A `user_stats[user_id]` record: `{"posts_today": ..., "last_reset": ...}`. -/
structure UserStat where
  posts_today : Nat
  last_reset : Int
deriving DecidableEq, Repr

/-- `content['type']` of a post: the four kinds the message handler
accepts (anything else is rejected before a post_data is built). -/
inductive ContentKind where
  | text
  | photo
  | video
  | document
deriving DecidableEq, Repr

/-- The `post_data` dict attached to a scheduled post. -/
structure PostData where
  kind : ContentKind
  text : String
  file_id : String
  caption : String
deriving DecidableEq, Repr

/-- A post id `f"post_{len(self.scheduled_posts)}_{datetime.now().timestamp()}"`.
The Python string is injective in the pair (list length, timestamp),
because the decimal digits of the length contain no underscore, so the
id is modelled as that pair. -/
structure PostId where
  seq : Nat
  ts : Int
deriving DecidableEq, Repr

/-- A `scheduled_posts` list entry, with the keys the scheduler reads
and writes (`scheduled_time` as seconds, `status` as the literal
strings `"scheduled"` / `"sent"` / `"error"` the code stores). -/
structure ScheduledPost where
  id : PostId
  channel_id : String
  channel_name : String
  post_data : PostData
  scheduled_time : Int
  status : String
  user_id : Int
deriving DecidableEq, Repr

/-- The mutable fields of `ChannelBot` that the claims touch:
`self.channels` (dict channel_id → display name), `self.scheduled_posts`,
`self.user_subscriptions`, `self.user_stats`, `self.subscription_plans`. -/
structure BotState where
  channels : List (String × String)
  scheduled_posts : List ScheduledPost
  user_subscriptions : List (Int × SubRecord)
  user_stats : List (Int × UserStat)
  subscription_plans : List (String × PlanConfig)
deriving DecidableEq, Repr

/-- Dict assignment `m[k] = v` on an association list. -/
def aupsert {κ α : Type} [BEq κ] (m : List (κ × α)) (k : κ) (v : α) : List (κ × α) :=
  if m.any (fun kv => kv.1 == k) then
    m.map (fun kv => if kv.1 == k then (k, v) else kv)
  else
    m ++ [(k, v)]

/-- `ChannelBot.get_user_plan` (src/bot.py lines 669–675): admin gets a
synthetic `{"plan": "admin", "subscribed_at": now}` record; otherwise
the stored record, defaulting to `{"plan": "free"}`.  A pure read: it
neither checks expiry nor writes anything. -/
def get_user_plan (s : BotState) (now : Int) (user_id : Int) : SubRecord :=
  if is_admin user_id then
    { plan := "admin", subscribed_at := some now, expires_at := none }
  else
    (List.lookup user_id s.user_subscriptions).getD freeRecord

/-- `ChannelBot.is_subscription_expired` (lines 677–690): no record or
no `expires_at` key counts as expired (the `except` branch for a
malformed date string is likewise "expired" and is subsumed by the
`none` case); otherwise expired iff `now > expires_at`. -/
def is_subscription_expired (s : BotState) (now : Int) (user_id : Int) : Bool :=
  match List.lookup user_id s.user_subscriptions with
  | none => true
  | some r =>
    match r.expires_at with
    | none => true
    | some e => decide (e < now)

/-- `ChannelBot.can_user_post` (lines 692–734).  Returns the boolean
together with the updated state (the Python mutates `self.user_stats`
in place: it inserts a default entry and applies the lazy daily reset);
`none` models the `KeyError` raised when `user_plan["plan"]` is not a
key of `subscription_plans`. -/
def can_user_post (s : BotState) (now : Int) (user_id : Int) : Option (Bool × BotState) :=
  if is_admin user_id then some (true, s)
  else
    let up := get_user_plan s now user_id
    if up.plan = "free" then some (false, s)
    else if is_subscription_expired s now user_id then some (false, s)
    else
      match List.lookup up.plan s.subscription_plans with
      | none => none
      | some pc =>
        if pc.channels_limit ≠ -1 ∧ (s.channels.length : Int) ≥ pc.channels_limit then
          some (false, s)
        else if pc.posts_per_day = -1 then some (true, s)
        else
          let today := dateOf now
          let st0 := (List.lookup user_id s.user_stats).getD
            { posts_today := 0, last_reset := today }
          let st1 := if st0.last_reset ≠ today then
            ({ posts_today := 0, last_reset := today } : UserStat) else st0
          some (decide ((st1.posts_today : Int) < pc.posts_per_day),
            { s with user_stats := aupsert s.user_stats user_id st1 })

/-- The per-day counter value `can_user_post` compares against the
limit: the stored `posts_today` after the lazy daily reset (0 when no
entry is stored or the stored `last_reset` is not today). -/
def effectiveCount (s : BotState) (now : Int) (user_id : Int) : Nat :=
  let st0 := (List.lookup user_id s.user_stats).getD
    { posts_today := 0, last_reset := dateOf now }
  if st0.last_reset ≠ dateOf now then 0 else st0.posts_today

/-- `ChannelBot.increment_user_posts` (lines 736–745): a no-op for the
admin; otherwise ensures a stats entry exists and adds 1 to
`posts_today` (no daily reset happens here — only in `can_user_post`). -/
def increment_user_posts (s : BotState) (now : Int) (user_id : Int) : BotState :=
  if is_admin user_id then s
  else
    let st := (List.lookup user_id s.user_stats).getD
      { posts_today := 0, last_reset := dateOf now }
    { s with user_stats :=
        aupsert s.user_stats user_id { st with posts_today := st.posts_today + 1 } }

/-- The channel-add admission chain shared by the `message_handler`
channel branch (lines 2012–2028) and `add_channel_menu` (1056–1068):
admin always passes; `"free"` plan, expired subscription, or a lost
private-channel membership (`is_subscribed`, the awaited result of the
external `check_channel_subscription` call) each deny; otherwise deny
iff the plan has a finite `channels_limit` already reached by
`len(self.channels)` — the *global* channel dict. -/
def can_add_channel (s : BotState) (now : Int) (user_id : Int)
    (is_subscribed : Bool) : Option Bool :=
  if is_admin user_id then some true
  else
    let up := get_user_plan s now user_id
    if up.plan = "free" then some false
    else if is_subscription_expired s now user_id then some false
    else if ¬ is_subscribed then some false
    else
      match List.lookup up.plan s.subscription_plans with
      | none => none
      | some pc =>
        if pc.channels_limit ≠ -1 ∧ (s.channels.length : Int) ≥ pc.channels_limit then
          some false
        else some true

/-- `self.channels[channel_id] = channel_id` (line 2030). -/
def add_channel (s : BotState) (channel_id : String) : BotState :=
  { s with channels := aupsert s.channels channel_id channel_id }

/-- Id allocation `f"post_{len(self.scheduled_posts)}_{datetime.now().timestamp()}"`:
current list length paired with the creation wall-clock reading. -/
def mkPostId (s : BotState) (wallclock : Int) : PostId :=
  { seq := s.scheduled_posts.length, ts := wallclock }

/-- The shared creation step of `_create_scheduled_post` (lines
1324–1339) and the custom-time branch of `message_handler` (1913–1931):
allocate the id, append the record with `status = "scheduled"`, then
`increment_user_posts`.  (The `asyncio.create_task` spawn is modelled by
calling `send_scheduled_post` separately at wake time.) -/
def create_scheduled_post (s : BotState) (pd : PostData) (channel_id : String)
    (schedule_time : Int) (user_id : Int) (wallclock : Int) (now : Int) :
    BotState × ScheduledPost :=
  let post : ScheduledPost :=
    { id := mkPostId s wallclock, channel_id := channel_id,
      channel_name := (List.lookup channel_id s.channels).getD "Неизвестный канал",
      post_data := pd, scheduled_time := schedule_time,
      status := "scheduled", user_id := user_id }
  let s1 := { s with scheduled_posts := s.scheduled_posts ++ [post] }
  (increment_user_posts s1 now user_id, post)

/-- The custom-time branch of `message_handler` (lines 1886–1905) after
a successful `parse_custom_time`: computes
`time_difference = (schedule_time - current_time).total_seconds()` and
rejects (`none`: no post is created, state untouched) when it is below
60; otherwise creates the post. -/
def handle_custom_time (s : BotState) (now : Int) (schedule_time : Int)
    (wallclock : Int) (pd : PostData) (channel_id : String) (user_id : Int) :
    Option BotState :=
  if schedule_time - now < 60 then none
  else some (create_scheduled_post s pd channel_id schedule_time user_id wallclock now).1

/-- `ChannelBot.cancel_scheduled_post` (lines 1418–1427): rebuilds
`self.scheduled_posts` keeping every post whose id differs — the
cancelled record is deleted outright, no `"cancelled"` status is ever
stored. -/
def cancel_scheduled_post (s : BotState) (post_id : PostId) : BotState :=
  { s with scheduled_posts :=
      s.scheduled_posts.filter (fun p => decide (p.id ≠ post_id)) }

/-- In-place `post['status'] = st` on the first list entry whose id
matches (the Python mutates the single dict `next(...)` returned). -/
def set_first_status : List ScheduledPost → PostId → String → List ScheduledPost
  | [], _, _ => []
  | p :: ps, post_id, st =>
    if p.id = post_id then { p with status := st } :: ps
    else p :: set_first_status ps post_id st

/-- Delay computation at the top of `send_scheduled_post` (lines
2190–2196): zero when the schedule time is at or before the wake-time
`now` (the subsequent `if delay > 0: await asyncio.sleep(delay)` is
skipped, so dispatch is immediate). -/
def dispatch_delay (schedule_time now : Int) : Int :=
  if schedule_time ≤ now then 0 else schedule_time - now

/-- `ChannelBot.send_scheduled_post` (lines 2185–2240) at wake time:
re-reads the post by id — absent (e.g. cancelled) means a silent no-op
with zero send calls; otherwise exactly one send call is attempted
(`send_ok` is the outcome of the external send), and the post's status
becomes `"sent"` on success or `"error"` on failure (the `except`
branch logs and swallows the exception — modelled by the function being
total).  Result: new state and number of send calls performed. -/
def send_scheduled_post (s : BotState) (post_id : PostId) (send_ok : Bool) :
    BotState × Nat :=
  match s.scheduled_posts.find? (fun p => decide (p.id = post_id)) with
  | none => (s, 0)
  | some _ =>
    if send_ok then
      ({ s with scheduled_posts := set_first_status s.scheduled_posts post_id "sent" }, 1)
    else
      ({ s with scheduled_posts := set_first_status s.scheduled_posts post_id "error" }, 1)

/-- `ChannelBot.publish_now` (lines 1194–1253): `_send_post_immediately`
performs exactly one send call with no sleep; on success the per-user
counter is incremented and the scratch data cleared, on failure the
exception is caught and the state is left alone.  Result: new state and
number of send calls. -/
def publish_now (s : BotState) (now : Int) (user_id : Int) (send_ok : Bool) :
    BotState × Nat :=
  if send_ok then (increment_user_posts s now user_id, 1) else (s, 1)

/-!  Concrete fixtures shared by witnesses and counterexamples.  -/

/-- A stored basic-plan subscription still valid at time 100. -/
def subBasicActive : SubRecord :=
  { plan := "basic", subscribed_at := some 10, expires_at := some 1000 }

/-- A stored basic-plan subscription already expired at time 100. -/
def subBasicExpired : SubRecord :=
  { plan := "basic", subscribed_at := some 10, expires_at := some 50 }

/-- Fresh bot state: default plans, nothing else. -/
def sEmpty : BotState :=
  { channels := [], scheduled_posts := [], user_subscriptions := [],
    user_stats := [], subscription_plans := defaultPlans }

/-- State where user 7 holds an expired basic subscription. -/
def sExp : BotState := { sEmpty with user_subscriptions := [(7, subBasicExpired)] }

/-- State where user 7 holds an active basic subscription and no channel exists. -/
def sNoChan : BotState := { sEmpty with user_subscriptions := [(7, subBasicActive)] }

/-- Like `sNoChan` but with one registered channel `"c1"`. -/
def sChan : BotState := { sNoChan with channels := [("c1", "c1")] }

/-- Like `sNoChan` but user 7 already used 2 posts today (day index 0). -/
def sFull : BotState := { sNoChan with user_stats := [(7, { posts_today := 2, last_reset := 0 })] }

/-- A text post payload. -/
def pdT : PostData := { kind := ContentKind.text, text := "hi", file_id := "", caption := "" }

/-- A concrete scheduled post with id `(0, 100)`. -/
def post0 : ScheduledPost :=
  { id := { seq := 0, ts := 100 }, channel_id := "c1", channel_name := "c1",
    post_data := pdT, scheduled_time := 500, status := "scheduled", user_id := 7 }

/-- `sChan` with `post0` pending in `scheduled_posts`. -/
def sPost : BotState := { sChan with scheduled_posts := [post0] }

/-- First creation: user 7 schedules a post at wall-clock 100 (list empty, so id `(0, 100)`). -/
def firstCreate : BotState × ScheduledPost :=
  create_scheduled_post sChan pdT "c1" 500 7 100 100

/-- Second creation at the same wall-clock reading 100, after the first post was
cancelled (the list is empty again, so the id `(0, 100)` is allocated a second time). -/
def secondCreate : BotState × ScheduledPost :=
  create_scheduled_post (cancel_scheduled_post firstCreate.1 firstCreate.2.id)
    pdT "c1" 600 7 100 100

/-!  Helper lemmas.  -/

/-- After filtering away every post with the given id, `find?` for that id is `none`. -/
theorem find_filter_ne_none (l : List ScheduledPost) (post_id : PostId) :
    (l.filter (fun p => decide (p.id ≠ post_id))).find?
      (fun p => decide (p.id = post_id)) = none := by
  induction l with
  | nil => rfl
  | cons p ps ih =>
    by_cases h : p.id = post_id
    · simp [List.filter_cons, h, ih]
    · simp [List.filter_cons, h, List.find?_cons, ih]

/-- `set_first_status` updates exactly the record `find?` locates. -/
theorem find_set_first_status (l : List ScheduledPost) (post_id : PostId) (st : String)
    (p : ScheduledPost)
    (h : l.find? (fun q => decide (q.id = post_id)) = some p) :
    (set_first_status l post_id st).find? (fun q => decide (q.id = post_id))
      = some { p with status := st } := by
  induction l with
  | nil => simp [List.find?] at h
  | cons q qs ih =>
    by_cases hq : q.id = post_id
    · rw [List.find?_cons_of_pos _ (by simpa using hq)] at h
      cases h
      simp [set_first_status, hq, List.find?_cons_of_pos]
    · rw [List.find?_cons_of_neg _ (by simpa using hq)] at h
      simp only [set_first_status, if_neg hq]
      rw [List.find?_cons_of_neg _ (by simpa using hq)]
      exact ih h

/-!  Claim theorems.  -/

/-- C1 (amended): cancelling a scheduled post removes its record outright, so
when the delivery timer wakes it finds no post under that id, performs no send
call (send count 0), and leaves the state untouched; in particular the post can
never reach status `"sent"` — but no `"cancelled"` status exists either. -/
theorem cancelled_post_timer_noop (s : BotState) (post_id : PostId) (send_ok : Bool) :
    (cancel_scheduled_post s post_id).scheduled_posts.find?
      (fun p => decide (p.id = post_id)) = none
    ∧ send_scheduled_post (cancel_scheduled_post s post_id) post_id send_ok
      = (cancel_scheduled_post s post_id, 0) := by
  have h := find_filter_ne_none s.scheduled_posts post_id
  have h2 : (cancel_scheduled_post s post_id).scheduled_posts.find?
      (fun p => decide (p.id = post_id)) = none := h
  exact ⟨h, by unfold send_scheduled_post; rw [h2]⟩

/-- C1 counterexample: in the concrete state `sPost`, cancelling `post0` before
its fire time leaves an empty post list; after the timer wakes there is still no
record at all — no send happened, but the final status is not `"cancelled"`
(the record is gone, refuting the claim that the post ends in status
`"cancelled"`). -/
theorem cancel_leaves_no_record :
    (cancel_scheduled_post sPost post0.id).scheduled_posts = []
    ∧ (send_scheduled_post (cancel_scheduled_post sPost post0.id) post0.id true).2 = 0
    ∧ ((send_scheduled_post (cancel_scheduled_post sPost post0.id) post0.id true).1).scheduled_posts
        = [] := by decide

/-- C2 (amended): `get_user_plan` returns an expired stored subscription
unchanged (no lazy degrade happens at resolution); the expiry is enforced
separately, at the admission check, where `can_user_post` answers `false`. -/
theorem expired_sub_passthrough_and_denied (s : BotState) (now user_id : Int)
    (r : SubRecord) (e : Int)
    (hadm : is_admin user_id = false)
    (hlk : List.lookup user_id s.user_subscriptions = some r)
    (hplan : r.plan ≠ "free")
    (hexp : r.expires_at = some e) (hlt : e < now) :
    get_user_plan s now user_id = r ∧ can_user_post s now user_id = some (false, s) := by
  have hex : is_subscription_expired s now user_id = true := by
    simp [is_subscription_expired, hlk, hexp, hlt]
  have hup : get_user_plan s now user_id = r := by simp [get_user_plan, hadm, hlk]
  exact ⟨hup, by simp [can_user_post, hadm, hup, hplan, hex]⟩

/-- C2 witness at `sExp` (user 7, expired at 50, accessed at 100). -/
theorem expired_sub_passthrough_and_denied_w :
    get_user_plan sExp 100 7 = subBasicExpired
    ∧ can_user_post sExp 100 7 = some (false, sExp) :=
  expired_sub_passthrough_and_denied sExp 100 7 subBasicExpired 50
    (by decide) (by decide) (by decide) (by decide) (by decide)

/-- C2 counterexample: at time 100 user 7 resolves to the stored record whose
`expires_at` (50) lies in the past — the expired record is returned, not a
degraded one. -/
theorem resolve_returns_expired_record :
    get_user_plan sExp 100 7 = subBasicExpired
    ∧ (get_user_plan sExp 100 7).expires_at = some 50
    ∧ (50 : Int) < 100
    ∧ (get_user_plan sExp 100 7).plan = "basic" := by decide

/-- C3 (amended): for a non-admin user with no stored subscription,
`get_user_plan` returns the `{"plan": "free"}` marker; being a pure read it
creates and persists nothing. -/
theorem no_sub_returns_free (s : BotState) (now user_id : Int)
    (hadm : is_admin user_id = false)
    (hlk : List.lookup user_id s.user_subscriptions = none) :
    get_user_plan s now user_id = freeRecord := by
  simp [get_user_plan, hadm, hlk]

/-- C3 witness at `sEmpty`. -/
theorem no_sub_returns_free_w : get_user_plan sEmpty 100 7 = freeRecord :=
  no_sub_returns_free sEmpty 100 7 (by decide) (by decide)

/-- C3 counterexample: resolving user 7 in the fresh state returns the free
marker (`plan = "free"`), not a created trial subscription. -/
theorem resolve_creates_no_trial :
    get_user_plan sEmpty 100 7 = freeRecord
    ∧ (get_user_plan sEmpty 100 7).plan = "free" := by decide

/-- C4 (amended): for a non-admin user with an active stored subscription whose
plan exists and whose channel-limit pre-check passes, the admission boolean of
`can_user_post` is `true` when `posts_per_day = -1` regardless of any counter,
and otherwise is exactly `effectiveCount < posts_per_day` (the stored counter
after the lazy daily reset). -/
theorem can_user_post_counts (s : BotState) (now user_id : Int)
    (r : SubRecord) (pc : PlanConfig)
    (hadm : is_admin user_id = false)
    (hlk : List.lookup user_id s.user_subscriptions = some r)
    (hplan : r.plan ≠ "free")
    (hexp : is_subscription_expired s now user_id = false)
    (hpc : List.lookup r.plan s.subscription_plans = some pc)
    (hch : ¬(pc.channels_limit ≠ -1 ∧ (s.channels.length : Int) ≥ pc.channels_limit)) :
    (pc.posts_per_day = -1 → (can_user_post s now user_id).map Prod.fst = some true)
    ∧ (pc.posts_per_day ≠ -1 → (can_user_post s now user_id).map Prod.fst
        = some (decide ((effectiveCount s now user_id : Int) < pc.posts_per_day))) := by
  have hup : get_user_plan s now user_id = r := by simp [get_user_plan, hadm, hlk]
  constructor
  · intro hun
    simp [can_user_post, hadm, hup, hplan, hexp, hpc, hch, hun]
  · intro hfin
    by_cases hr : ((List.lookup user_id s.user_stats).getD
        { posts_today := 0, last_reset := dateOf now }).last_reset ≠ dateOf now
    · simp [can_user_post, hadm, hup, hplan, hexp, hpc, hch, hfin, effectiveCount, hr]
    · simp [can_user_post, hadm, hup, hplan, hexp, hpc, hch, hfin, effectiveCount, hr]

/-- C4 witness at `sFull` (basic plan, counter already at the limit 2). -/
theorem can_user_post_counts_w :
    (can_user_post sFull 100 7).map Prod.fst
      = some (decide ((effectiveCount sFull 100 7 : Int) < basicPlan.posts_per_day)) :=
  (can_user_post_counts sFull 100 7 subBasicActive basicPlan
    (by decide) (by decide) (by decide) (by decide) (by decide) (by decide)).2 (by decide)

/-- C4 counterexample: user 7 has an active non-expired basic subscription and
a per-day count of 0 (below the limit 2), yet `can_user_post` answers `false`,
because the channel-limit branch (global channel count 1 ≥ `channels_limit` 1)
fires first — refuting "returns false exactly when the per-day count has
reached `posts_per_day`". -/
theorem can_post_false_below_count :
    can_user_post sChan 100 7 = some (false, sChan)
    ∧ List.lookup 7 sChan.user_stats = none
    ∧ basicPlan.posts_per_day = 2
    ∧ List.lookup "basic" sChan.subscription_plans = some basicPlan
    ∧ is_subscription_expired sChan 100 7 = false := by decide

/-- C5 (amended): for a non-admin user with an active subscription (and the
external membership check passing), the channel-add admission depends only on
the *global* channel count `len(self.channels)` versus the plan's limit — the
store keeps no per-user ownership at all. -/
theorem can_add_channel_global (s : BotState) (now user_id : Int)
    (r : SubRecord) (pc : PlanConfig)
    (hadm : is_admin user_id = false)
    (hlk : List.lookup user_id s.user_subscriptions = some r)
    (hplan : r.plan ≠ "free")
    (hexp : is_subscription_expired s now user_id = false)
    (hpc : List.lookup r.plan s.subscription_plans = some pc) :
    can_add_channel s now user_id true
      = some (decide (pc.channels_limit = -1
          ∨ (s.channels.length : Int) < pc.channels_limit)) := by
  have hup : get_user_plan s now user_id = r := by simp [get_user_plan, hadm, hlk]
  by_cases h : pc.channels_limit ≠ -1 ∧ (s.channels.length : Int) ≥ pc.channels_limit
  · have hd : ¬(pc.channels_limit = -1 ∨ (s.channels.length : Int) < pc.channels_limit) := by
      push_neg
      exact ⟨h.1, by omega⟩
    simp [can_add_channel, hadm, hup, hplan, hexp, hpc, h, hd]
  · have hd : pc.channels_limit = -1 ∨ (s.channels.length : Int) < pc.channels_limit := by
      by_contra hc
      push_neg at hc
      exact h ⟨hc.1, by omega⟩
    simp [can_add_channel, hadm, hup, hplan, hexp, hpc, h, hd]

/-- C5 witness at `sNoChan` (no channels, basic limit 1: allowed). -/
theorem can_add_channel_global_w :
    can_add_channel sNoChan 100 7 true
      = some (decide (basicPlan.channels_limit = -1
          ∨ (sNoChan.channels.length : Int) < basicPlan.channels_limit)) :=
  can_add_channel_global sNoChan 100 7 subBasicActive basicPlan
    (by decide) (by decide) (by decide) (by decide) (by decide)

/-- C5 counterexample: user 7 (active basic subscription, owns no channel) may
add a channel while the global dict is empty, but is denied as soon as the
channel `"cB"` has been registered — through any user's add flow, since the
dict `self.channels` records no owner — refuting "channels owned by other
users do not affect the result". -/
theorem other_user_channel_blocks :
    can_add_channel sNoChan 100 7 true = some true
    ∧ can_add_channel (add_channel sNoChan "cB") 100 7 true = some false := by decide

/-- C6: a custom-time fire time less than 60 seconds ahead of `now` is
rejected with no post created; a fire time at or before `now` at timer wake
gets delay 0; and the explicit publish-now path performs its single send call
immediately (it has no timer at all). -/
theorem custom_time_min_lead_and_now_zero_delay
    (s : BotState) (now schedule_time wallclock : Int) (pd : PostData)
    (channel_id : String) (user_id : Int) :
    (schedule_time - now < 60 →
      handle_custom_time s now schedule_time wallclock pd channel_id user_id = none)
    ∧ (schedule_time ≤ now → dispatch_delay schedule_time now = 0)
    ∧ (∀ send_ok : Bool, (publish_now s now user_id send_ok).2 = 1) := by
  refine ⟨fun h => by simp [handle_custom_time, h],
      fun h => by simp [dispatch_delay, h], fun send_ok => ?_⟩
  cases send_ok <;> simp [publish_now]

/-- C6 witness: fire time 130 is 30 s after now = 100 (rejected); fire time 90
at wake time 100 gets delay 0; a publish-now performs one send. -/
theorem custom_time_min_lead_and_now_zero_delay_w :
    handle_custom_time sChan 100 130 100 pdT "c1" 7 = none
    ∧ dispatch_delay 90 100 = 0
    ∧ (publish_now sChan 100 7 true).2 = 1 :=
  ⟨(custom_time_min_lead_and_now_zero_delay sChan 100 130 100 pdT "c1" 7).1 (by decide),
   (custom_time_min_lead_and_now_zero_delay sChan 100 90 100 pdT "c1" 7).2.1 (by decide),
   (custom_time_min_lead_and_now_zero_delay sChan 100 130 100 pdT "c1" 7).2.2 true⟩

/-- C7: when the post is present at wake time and the external send fails, the
delivery task makes exactly one send attempt (no retry), records status
`"error"` on that post, and returns normally (the function is total: the
Python `except` swallows the exception). -/
theorem dispatch_failure_sets_error (s : BotState) (post_id : PostId) (p : ScheduledPost)
    (h : s.scheduled_posts.find? (fun q => decide (q.id = post_id)) = some p) :
    send_scheduled_post s post_id false
      = ({ s with scheduled_posts := set_first_status s.scheduled_posts post_id "error" }, 1)
    ∧ ((send_scheduled_post s post_id false).1).scheduled_posts.find?
        (fun q => decide (q.id = post_id)) = some { p with status := "error" } := by
  have h1 : send_scheduled_post s post_id false
      = ({ s with scheduled_posts := set_first_status s.scheduled_posts post_id "error" }, 1) := by
    simp [send_scheduled_post, h]
  exact ⟨h1, by rw [h1]; exact find_set_first_status _ _ _ _ h⟩

/-- C7 witness at `sPost` / `post0`. -/
theorem dispatch_failure_sets_error_w :
    send_scheduled_post sPost post0.id false
      = ({ sPost with
            scheduled_posts := set_first_status sPost.scheduled_posts post0.id "error" }, 1)
    ∧ ((send_scheduled_post sPost post0.id false).1).scheduled_posts.find?
        (fun q => decide (q.id = post0.id)) = some { post0 with status := "error" } :=
  dispatch_failure_sets_error sPost post0.id post0 (by decide)

/-- C8: for the configured admin id, in every state, plan resolution yields the
synthetic `"admin"` record (never `"free"`), the post admission check answers
`true`, and the channel-add admission answers `true` even when the external
membership flag is `false` — the admin identity overrides stored
subscriptions, expiry and all limits. -/
theorem admin_always_passes (s : BotState) (now : Int) :
    get_user_plan s now ADMIN_ID
      = { plan := "admin", subscribed_at := some now, expires_at := none }
    ∧ (get_user_plan s now ADMIN_ID).plan ≠ "free"
    ∧ can_user_post s now ADMIN_ID = some (true, s)
    ∧ can_add_channel s now ADMIN_ID false = some true := by
  have ha : is_admin ADMIN_ID = true := by simp [is_admin]
  refine ⟨by simp [get_user_plan, ha], ?_, by simp [can_user_post, ha],
      by simp [can_add_channel, ha]⟩
  simp [get_user_plan, ha]

/-- C9 (amended): two post creations with distinct wall-clock timestamp
readings always allocate distinct ids (the timestamp component separates
them); the list-length component alone does not, since cancellation shrinks
the list. -/
theorem post_ids_distinct_times (s t : BotState) (a b : Int) (h : a ≠ b) :
    mkPostId s a ≠ mkPostId t b :=
  fun hc => h (congrArg PostId.ts hc)

/-- C9 witness: ids allocated at wall-clock readings 100 and 101 differ. -/
theorem post_ids_distinct_times_w : mkPostId sChan 100 ≠ mkPostId sEmpty 101 :=
  post_ids_distinct_times sChan sEmpty 100 101 (by decide)

/-- C9 counterexample: the post created by `firstCreate` is cancelled and a
second, different post is created at the same wall-clock reading; both receive
the id `(0, 100)` — the id is reused, refuting global uniqueness. -/
theorem post_id_reused_after_cancel :
    firstCreate.2.id = secondCreate.2.id ∧ firstCreate.2 ≠ secondCreate.2 := by decide

/-- C10: incrementing the per-user daily post counter for the admin id is a
complete no-op: the state — statistics entries of every user included — is
returned unchanged. -/
theorem increment_admin_noop (s : BotState) (now : Int) :
    increment_user_posts s now ADMIN_ID = s := by
  simp [increment_user_posts, is_admin]

end PupuBot
